import Mathlib

/-
Verification development for the TW inventory application (src/app.py).

The embedding models the parts of app.py that the specified properties are
about: the product catalog, the per-session transient line-item buffers
(bill_items / reception_items), the draft store, and the finalize
transitions for consumption bills and reception sheets.

Conventions of the embedding:
  - The relational store is a DBState record of lists, one per table, in
    insertion order.  SQLAlchemy autoincrement primary keys are modelled by
    a single counter nextId.
  - Python float quantities are modelled as rationals; the spec describes
    quantity as a signed decimal and every claim is about exact arithmetic.
  - The Flask session is a SessionState record; a key that is absent from
    the session dict is modelled as none.
  - datetime.utcnow() is modelled by a Nat parameter named now.
  - A database transaction is modelled explicitly: changes made inside the
    try block become visible only on the commit branch; the failure branch
    returns the committed state unchanged, mirroring db.session.rollback(),
    which discards every uncommitted row and update.  The txnFails flag
    abstracts an exception raised at any point inside the try block, since
    rollback discards all pending changes regardless of where the
    exception occurred.
  - The ORM table shapes come from models.py, which is not part of src/.
    Modelled from the spec: field lists follow section 3 of the spec and
    every use in app.py; the spec states no table constraint beyond the
    uniqueness of the product code, so none is modelled.
-/

deriving instance DecidableEq for Except

namespace TW

/-- Python str.strip on a character list: drop whitespace from the front
and from the back. -/
def stripChars (l : List Char) : List Char :=
  ((l.dropWhile Char.isWhitespace).reverse.dropWhile Char.isWhitespace).reverse

/-- Python str.strip, used on the finalize form fields. -/
def pyStrip (s : String) : String :=
  String.mk (stripChars s.data)

/-- Modelled from the spec: the Product table of models.py (not in src/),
with the fields of section 3 of the spec as used by app.py. -/
structure Product where
  id : Nat
  code : String
  name : String
  unit : String
  quantity : ℚ
  location : String
  min_stock : ℚ
  updated_at : Nat
deriving DecidableEq

/-- One entry of the session list bill_items / reception_items, exactly the
dict built in add_bill_item and add_reception_item. -/
structure BufferItem where
  item_number : Nat
  code : String
  name : String
  unit : String
  quantity : ℚ
  location : String
deriving DecidableEq

/-- Modelled from the spec: the ConsumptionBill table of models.py. -/
structure ConsumptionBill where
  id : Nat
  employee_name : String
  employee_signature : String
  is_finished : Bool
  bill_date : Nat
deriving DecidableEq

/-- Modelled from the spec: the BillItem table of models.py. -/
structure BillItem where
  bill_id : Nat
  item_number : Nat
  product_code : String
  product_name : String
  unit : String
  quantity : ℚ
  location : String
deriving DecidableEq

/-- Modelled from the spec: the ReceptionSheet table of models.py. -/
structure ReceptionSheet where
  id : Nat
  supplier : String
  document_number : String
  notes : String
  is_finished : Bool
  reception_date : Nat
deriving DecidableEq

/-- Modelled from the spec: the ReceptionItem table of models.py.  The
entry_date column is a creation timestamp never read by the specified
operations and is omitted. -/
structure ReceptionItem where
  reception_id : Nat
  item_number : Nat
  product_code : String
  product_name : String
  unit : String
  quantity : ℚ
  location : String
deriving DecidableEq

/-- Modelled from the spec: the DraftBill table of models.py. -/
structure DraftBill where
  id : Nat
  employee_name : String
  employee_signature : String
  last_updated : Nat
deriving DecidableEq

/-- Modelled from the spec: the DraftBillItem table of models.py. -/
structure DraftBillItem where
  draft_id : Nat
  item_number : Nat
  product_code : String
  product_name : String
  unit : String
  quantity : ℚ
  location : String
deriving DecidableEq

/-- Modelled from the spec: the DraftReception table of models.py. -/
structure DraftReception where
  id : Nat
  supplier : String
  document_number : String
  notes : String
  last_updated : Nat
deriving DecidableEq

/-- Modelled from the spec: the DraftReceptionItem table of models.py. -/
structure DraftReceptionItem where
  draft_id : Nat
  item_number : Nat
  product_code : String
  product_name : String
  unit : String
  quantity : ℚ
  location : String
deriving DecidableEq

/-- The committed relational store: one list per table, in insertion
order, plus the autoincrement counter. -/
structure DBState where
  products : List Product
  bills : List ConsumptionBill
  billItems : List BillItem
  receptions : List ReceptionSheet
  receptionItems : List ReceptionItem
  draftBills : List DraftBill
  draftBillItems : List DraftBillItem
  draftReceptions : List DraftReception
  draftReceptionItems : List DraftReceptionItem
  nextId : Nat
deriving DecidableEq

/-- The Flask session: the two transient buffers.  none models a key that
is absent from the session dict. -/
structure SessionState where
  bill_items : Option (List BufferItem)
  reception_items : Option (List BufferItem)
deriving DecidableEq

/-- Errors of the item-add endpoints (the 400 JSON bodies). -/
inductive AddError where
  | productNotFound
  | insufficientStock
deriving DecidableEq

/-- Outcome of a finalize endpoint. -/
inductive FinalizeResult where
  | validationError
  | emptyDocument
  | txnFailure
  | ok (docId : Nat)
deriving DecidableEq

/-- Product.query.filter_by(code=product_code).first(): the first product
in table order whose code matches. -/
def findProduct (products : List Product) (code : String) : Option Product :=
  products.find? (fun p => p.code == code)

/-- add_bill_item (app.py lines 167 to 198): look the product up by code,
reject a missing product, reject a quantity strictly greater than the
catalog quantity, otherwise append the snapshot dict with item_number one
more than the current buffer length. -/
def add_bill_item (db : DBState) (sess : SessionState) (product_code : String)
    (quantity : ℚ) : Except AddError (SessionState × BufferItem) :=
  match findProduct db.products product_code with
  | none => .error .productNotFound
  | some product =>
    if quantity > product.quantity then
      .error .insufficientStock
    else
      let items := sess.bill_items.getD []
      let item : BufferItem :=
        { item_number := items.length + 1
          code := product.code
          name := product.name
          unit := product.unit
          quantity := quantity
          location := product.location }
      .ok ({ sess with bill_items := some (items ++ [item]) }, item)

/-- add_reception_item (app.py lines 500 to 528): same as add_bill_item
but with no stock check. -/
def add_reception_item (db : DBState) (sess : SessionState) (product_code : String)
    (quantity : ℚ) : Except AddError (SessionState × BufferItem) :=
  match findProduct db.products product_code with
  | none => .error .productNotFound
  | some product =>
    let items := sess.reception_items.getD []
    let item : BufferItem :=
      { item_number := items.length + 1
        code := product.code
        name := product.name
        unit := product.unit
        quantity := quantity
        location := product.location }
    .ok ({ sess with reception_items := some (items ++ [item]) }, item)

/-- Renumbering loop of remove_bill_item / remove_reception_item: for each
surviving entry at zero-based position i, set item_number to i + 1.  The
parameter k is the number the head receives. -/
def renumberFrom (k : Nat) : List BufferItem → List BufferItem
  | [] => []
  | it :: rest => { it with item_number := k } :: renumberFrom (k + 1) rest

/-- Renumber a buffer contiguously starting at 1. -/
def renumber (items : List BufferItem) : List BufferItem :=
  renumberFrom 1 items

/-- remove_bill_item (app.py lines 200 to 211): when bill_items is in the
session and the index is in bounds, pop the entry at that index and
renumber; otherwise leave the session unchanged. -/
def remove_bill_item (sess : SessionState) (item_index : Nat) : SessionState :=
  match sess.bill_items with
  | none => sess
  | some items =>
    if item_index < items.length then
      { sess with bill_items := some (renumber (items.eraseIdx item_index)) }
    else
      sess

/-- remove_reception_item (app.py lines 530 to 541). -/
def remove_reception_item (sess : SessionState) (item_index : Nat) : SessionState :=
  match sess.reception_items with
  | none => sess
  | some items =>
    if item_index < items.length then
      { sess with reception_items := some (renumber (items.eraseIdx item_index)) }
    else
      sess

/-- Conversion of a buffer entry to a DraftBillItem row, as in
save_bill_draft. -/
def mkDraftBillItem (draftId : Nat) (item : BufferItem) : DraftBillItem :=
  { draft_id := draftId
    item_number := item.item_number
    product_code := item.code
    product_name := item.name
    unit := item.unit
    quantity := item.quantity
    location := item.location }

/-- save_bill_draft (app.py lines 213 to 248): delete every DraftBill and
DraftBillItem row, insert one new draft row carrying the form metadata
verbatim, then one draft item row per buffer entry (none when the session
key is absent). -/
def save_bill_draft (db : DBState) (sess : SessionState)
    (employee_name employee_signature : String) (now : Nat) : DBState :=
  let draftId := db.nextId
  let draft : DraftBill :=
    { id := draftId
      employee_name := employee_name
      employee_signature := employee_signature
      last_updated := now }
  { db with
    draftBills := [draft]
    draftBillItems := (sess.bill_items.getD []).map (mkDraftBillItem draftId)
    nextId := db.nextId + 1 }

/-- Conversion of a buffer entry to a DraftReceptionItem row, as in
save_reception_draft. -/
def mkDraftReceptionItem (draftId : Nat) (item : BufferItem) : DraftReceptionItem :=
  { draft_id := draftId
    item_number := item.item_number
    product_code := item.code
    product_name := item.name
    unit := item.unit
    quantity := item.quantity
    location := item.location }

/-- save_reception_draft (app.py lines 543 to 580). -/
def save_reception_draft (db : DBState) (sess : SessionState)
    (supplier document_number notes : String) (now : Nat) : DBState :=
  let draftId := db.nextId
  let draft : DraftReception :=
    { id := draftId
      supplier := supplier
      document_number := document_number
      notes := notes
      last_updated := now }
  { db with
    draftReceptions := [draft]
    draftReceptionItems := (sess.reception_items.getD []).map (mkDraftReceptionItem draftId)
    nextId := db.nextId + 1 }

/-- order_by(last_updated.desc()).first() over a list of bill drafts: the
first element of maximal last_updated (a stable descending sort keeps the
earlier of two equal keys first). -/
def latestDraftBill (drafts : List DraftBill) : Option DraftBill :=
  drafts.foldl
    (fun acc d =>
      match acc with
      | none => some d
      | some best => if best.last_updated < d.last_updated then some d else some best)
    none

/-- order_by(last_updated.desc()).first() over the reception drafts. -/
def latestDraftReception (drafts : List DraftReception) : Option DraftReception :=
  drafts.foldl
    (fun acc d =>
      match acc with
      | none => some d
      | some best => if best.last_updated < d.last_updated then some d else some best)
    none

/-- Metadata dict returned by load_draft_bill. -/
structure DraftBillData where
  employee_name : String
  employee_signature : String
deriving DecidableEq

/-- Metadata dict returned by load_draft_reception. -/
structure DraftReceptionData where
  supplier : String
  document_number : String
  notes : String
deriving DecidableEq

/-- Conversion of a draft item row back to the session dict format, as in
load_draft_bill. -/
def draftBillItemToBuffer (it : DraftBillItem) : BufferItem :=
  { item_number := it.item_number
    code := it.product_code
    name := it.product_name
    unit := it.unit
    quantity := it.quantity
    location := it.location }

/-- load_draft_bill (app.py lines 645 to 670): when no draft row exists,
return None without touching the session; otherwise replace the
bill_items session key with the draft items of the most recent draft and
return its metadata. -/
def load_draft_bill (db : DBState) (sess : SessionState) :
    SessionState × Option DraftBillData :=
  match latestDraftBill db.draftBills with
  | none => (sess, none)
  | some draft =>
    let items := db.draftBillItems.filter (fun it => it.draft_id == draft.id)
    ({ sess with bill_items := some (items.map draftBillItemToBuffer) },
     some { employee_name := draft.employee_name
            employee_signature := draft.employee_signature })

/-- Conversion of a reception draft item row back to the session dict
format, as in load_draft_reception. -/
def draftReceptionItemToBuffer (it : DraftReceptionItem) : BufferItem :=
  { item_number := it.item_number
    code := it.product_code
    name := it.product_name
    unit := it.unit
    quantity := it.quantity
    location := it.location }

/-- load_draft_reception (app.py lines 672 to 698). -/
def load_draft_reception (db : DBState) (sess : SessionState) :
    SessionState × Option DraftReceptionData :=
  match latestDraftReception db.draftReceptions with
  | none => (sess, none)
  | some draft =>
    let items := db.draftReceptionItems.filter (fun it => it.draft_id == draft.id)
    ({ sess with reception_items := some (items.map draftReceptionItemToBuffer) },
     some { supplier := draft.supplier
            document_number := draft.document_number
            notes := draft.notes })

/-- Update the first product whose code matches, as
Product.query.filter_by(code=...).first() followed by a field update does;
when no product matches, the list is unchanged (the silent skip). -/
def adjustFirst (ps : List Product) (c : String) (f : Product → Product) :
    List Product :=
  match ps with
  | [] => []
  | p :: rest =>
    if p.code == c then f p :: rest else p :: adjustFirst rest c f

/-- Stock update applied to the matching product for one bill item:
product.quantity -= item.quantity and the timestamp refresh. -/
def billAdj (now : Nat) (item : BufferItem) (p : Product) : Product :=
  { p with quantity := p.quantity - item.quantity, updated_at := now }

/-- Stock update applied to the matching product for one reception item:
product.quantity += item.quantity and the timestamp refresh. -/
def receptionAdj (now : Nat) (item : BufferItem) (p : Product) : Product :=
  { p with quantity := p.quantity + item.quantity, updated_at := now }

/-- Conversion of a buffer entry to a BillItem row, as in
finalize_consumption_bill. -/
def mkBillItem (billId : Nat) (item : BufferItem) : BillItem :=
  { bill_id := billId
    item_number := item.item_number
    product_code := item.code
    product_name := item.name
    unit := item.unit
    quantity := item.quantity
    location := item.location }

/-- Conversion of a buffer entry to a ReceptionItem row, as in
finalize_reception. -/
def mkReceptionItem (receptionId : Nat) (item : BufferItem) : ReceptionItem :=
  { reception_id := receptionId
    item_number := item.item_number
    product_code := item.code
    product_name := item.name
    unit := item.unit
    quantity := item.quantity
    location := item.location }

/-- One iteration of the finalize_consumption_bill loop: insert the
BillItem row, then subtract the quantity from the first product with the
matching code (no update when the product no longer exists). -/
def billTxnStep (now billId : Nat) (w : DBState) (item : BufferItem) : DBState :=
  { w with
    billItems := w.billItems ++ [mkBillItem billId item]
    products := adjustFirst w.products item.code (billAdj now item) }

/-- One iteration of the finalize_reception loop. -/
def receptionTxnStep (now receptionId : Nat) (w : DBState) (item : BufferItem) :
    DBState :=
  { w with
    receptionItems := w.receptionItems ++ [mkReceptionItem receptionId item]
    products := adjustFirst w.products item.code (receptionAdj now item) }

/-- finalize_consumption_bill (app.py lines 250 to 309).  The stripped
employee name must be non-empty and the buffer must exist and be
non-empty; then the try block creates the bill row, one BillItem per
buffer entry with the stock subtraction, deletes every draft row of the
bill type, and commits; only after the commit is the session key popped.
When txnFails is true an exception is raised inside the try block and
db.session.rollback() discards every uncommitted change, so the committed
store and the session are returned unchanged and the error is surfaced. -/
def finalize_consumption_bill (db : DBState) (sess : SessionState)
    (employee_name employee_signature : String) (now : Nat) (txnFails : Bool) :
    DBState × SessionState × FinalizeResult :=
  let name := pyStrip employee_name
  let sig := pyStrip employee_signature
  if name = "" then
    (db, sess, .validationError)
  else
    match sess.bill_items with
    | none => (db, sess, .emptyDocument)
    | some [] => (db, sess, .emptyDocument)
    | some items =>
      if txnFails then
        (db, sess, .txnFailure)
      else
        let billId := db.nextId
        let w0 : DBState :=
          { db with
            bills := db.bills ++
              [{ id := billId
                 employee_name := name
                 employee_signature := sig
                 is_finished := true
                 bill_date := now }]
            nextId := db.nextId + 1 }
        let w1 := items.foldl (billTxnStep now billId) w0
        let w2 := { w1 with draftBills := [], draftBillItems := [] }
        (w2, { sess with bill_items := none }, .ok billId)

/-- finalize_reception (app.py lines 582 to 643), the mirror of
finalize_consumption_bill with the stripped supplier as the required
field and stock addition instead of subtraction. -/
def finalize_reception (db : DBState) (sess : SessionState)
    (supplier document_number notes : String) (now : Nat) (txnFails : Bool) :
    DBState × SessionState × FinalizeResult :=
  let supplierT := pyStrip supplier
  let docNo := pyStrip document_number
  let notesT := pyStrip notes
  if supplierT = "" then
    (db, sess, .validationError)
  else
    match sess.reception_items with
    | none => (db, sess, .emptyDocument)
    | some [] => (db, sess, .emptyDocument)
    | some items =>
      if txnFails then
        (db, sess, .txnFailure)
      else
        let receptionId := db.nextId
        let w0 : DBState :=
          { db with
            receptions := db.receptions ++
              [{ id := receptionId
                 supplier := supplierT
                 document_number := docNo
                 notes := notesT
                 is_finished := true
                 reception_date := now }]
            nextId := db.nextId + 1 }
        let w1 := items.foldl (receptionTxnStep now receptionId) w0
        let w2 := { w1 with draftReceptions := [], draftReceptionItems := [] }
        (w2, { sess with reception_items := none }, .ok receptionId)

/-- Total catalog quantity. -/
def sumQ (ps : List Product) : ℚ :=
  (ps.map (fun p => p.quantity)).sum

/-- Sum of the quantities of the buffer items that carry a given product
code. -/
def net (items : List BufferItem) (c : String) : ℚ :=
  ((items.filter (fun it => it.code == c)).map (fun it => it.quantity)).sum

/-- Whether some catalog product carries the given code. -/
def codeMem (ps : List Product) (c : String) : Bool :=
  ps.any (fun p => p.code == c)

/-- Sum of the quantities of the buffer items whose product code still
exists in the catalog. -/
def existingNet (ps : List Product) (items : List BufferItem) : ℚ :=
  ((items.filter (fun it => codeMem ps it.code)).map (fun it => it.quantity)).sum

/-- The stock-adjustment loop of a finalize transaction in isolation: one
adjustFirst application per buffer item, in order. -/
def stockFold (g : BufferItem → Product → Product) (ps : List Product)
    (items : List BufferItem) : List Product :=
  items.foldl (fun acc it => adjustFirst acc it.code (g it)) ps

/-- The fields of a buffer entry other than its sequence number. -/
def snapshot (it : BufferItem) : String × String × String × ℚ × String :=
  (it.code, it.name, it.unit, it.quantity, it.location)

/-- The numbering invariant of a buffer: the sequence numbers are exactly
1..n in list order. -/
def contiguous (items : List BufferItem) : Prop :=
  items.map (fun it => it.item_number) = List.range' 1 items.length

/-- One user action on a transient buffer. -/
inductive BufOp where
  | add (code : String) (qty : ℚ)
  | remove (idx : Nat)

/-- Effect of one user action on the bill buffer: a rejected add leaves
the session unchanged (the endpoint returns a 400 without touching it). -/
def applyBillOp (db : DBState) (sess : SessionState) : BufOp → SessionState
  | .add code qty =>
    match add_bill_item db sess code qty with
    | .ok (s, _) => s
    | .error _ => sess
  | .remove idx => remove_bill_item sess idx

/-- Effect of a sequence of user actions on the bill buffer. -/
def runBillOps (db : DBState) (sess : SessionState) (ops : List BufOp) :
    SessionState :=
  ops.foldl (applyBillOp db) sess

/-- Effect of one user action on the reception buffer. -/
def applyReceptionOp (db : DBState) (sess : SessionState) : BufOp → SessionState
  | .add code qty =>
    match add_reception_item db sess code qty with
    | .ok (s, _) => s
    | .error _ => sess
  | .remove idx => remove_reception_item sess idx

/-- Effect of a sequence of user actions on the reception buffer. -/
def runReceptionOps (db : DBState) (sess : SessionState) (ops : List BufOp) :
    SessionState :=
  ops.foldl (applyReceptionOp db) sess

/-- Sample catalog product, code A1 with quantity 10, for the concrete
instances. -/
def prodA1 : Product :=
  { id := 1, code := "A1", name := "Alpha", unit := "kg", quantity := 10,
    location := "L1", min_stock := 2, updated_at := 0 }

/-- Second sample catalog product, code B2 with quantity 5. -/
def prodB2 : Product :=
  { id := 2, code := "B2", name := "Beta", unit := "pc", quantity := 5,
    location := "L2", min_stock := 1, updated_at := 0 }

/-- Sample committed store with the two products and no documents. -/
def sampleDB : DBState :=
  { products := [prodA1, prodB2], bills := [], billItems := [], receptions := [],
    receptionItems := [], draftBills := [], draftBillItems := [],
    draftReceptions := [], draftReceptionItems := [], nextId := 5 }

/-- Fresh session with neither buffer key present. -/
def sess0 : SessionState := { bill_items := none, reception_items := none }

/-- Sample buffer entry: 4 units of A1. -/
def itemA1q4 : BufferItem :=
  { item_number := 1, code := "A1", name := "Alpha", unit := "kg", quantity := 4,
    location := "L1" }

/-- Sample buffer entry whose product code ZZ is not in the catalog. -/
def itemZZq3 : BufferItem :=
  { item_number := 2, code := "ZZ", name := "Gone", unit := "pc", quantity := 3,
    location := "LZ" }

/-- Sample buffer entry: 99 units of B2. -/
def itemB2q99 : BufferItem :=
  { item_number := 1, code := "B2", name := "Beta", unit := "pc", quantity := 99,
    location := "L2" }

/-- Sample buffer entry with a negative quantity of A1. -/
def itemA1neg5 : BufferItem :=
  { item_number := 1, code := "A1", name := "Alpha", unit := "kg", quantity := -5,
    location := "L1" }

/-- Session holding the two sample entries in both buffers. -/
def sessC2 : SessionState :=
  { bill_items := some [itemA1q4, itemZZq3],
    reception_items := some [itemA1q4, itemZZq3] }

/-- Session of the successful add in the claim scenario, taken from the
outcome of the call itself. -/
def extractSess (r : Except AddError (SessionState × BufferItem))
    (dflt : SessionState) : SessionState :=
  match r with
  | .ok (s, _) => s
  | .error _ => dflt

/-- Session after addItem(A1, 4) from a fresh session. -/
def c4sess1 : SessionState := extractSess (add_bill_item sampleDB sess0 "A1" 4) sess0

/-- Session after the subsequent addItem(A1, 10). -/
def c4sess2 : SessionState := extractSess (add_bill_item sampleDB c4sess1 "A1" 10) sess0

/-- Session after addItem(A1, -5) from a fresh session. -/
def c9sess : SessionState := extractSess (add_bill_item sampleDB sess0 "A1" (-5)) sess0

theorem adjustFirst_map_code (ps : List Product) (c : String) (f : Product → Product)
    (h : ∀ p, (f p).code = p.code) :
    (adjustFirst ps c f).map (fun p => p.code) = ps.map (fun p => p.code) := by
  induction ps with
  | nil => rfl
  | cons p rest ih =>
    cases hbc : (p.code == c) with
    | true => simp [adjustFirst, hbc, h]
    | false => simp [adjustFirst, hbc, ih]

theorem adjustFirst_eq_map (ps : List Product) (c : String) (f : Product → Product)
    (hnd : (ps.map (fun p => p.code)).Nodup) :
    adjustFirst ps c f = ps.map (fun p => if p.code == c then f p else p) := by
  induction ps with
  | nil => rfl
  | cons p rest ih =>
    simp only [List.map_cons, List.nodup_cons] at hnd
    cases hbc : (p.code == c) with
    | true =>
      have hpc : p.code = c := by simpa using hbc
      have hrest : ∀ q ∈ rest, (if q.code = c then f q else q) = q := by
        intro q hq
        have hqc : q.code ≠ c := by
          intro hqc
          exact hnd.1 (by simpa [hqc, hpc] using List.mem_map_of_mem (fun r => r.code) hq)
        simp [hqc]
      simp only [adjustFirst, hbc, if_true, List.map_cons]
      refine congrArg₂ _ (by simp [hpc]) ?_
      have hmap : List.map (fun q => if q.code == c then f q else q) rest = rest := by
        have h2 : ∀ q ∈ rest, (if q.code == c then f q else q) = q := by
          intro q hq
          simpa using hrest q hq
        rw [List.map_congr_left h2]
        simp
      rw [hmap]
    | false =>
      have hpc : ¬ p.code = c := by simpa using hbc
      simp [adjustFirst, hbc, ih hnd.2, hpc]

theorem adjustFirst_sumQ (ps : List Product) (c : String) (f : Product → Product)
    (d : ℚ) (hq : ∀ p, (f p).quantity = p.quantity + d) :
    sumQ (adjustFirst ps c f) = sumQ ps + (if codeMem ps c then d else 0) := by
  induction ps with
  | nil => simp [adjustFirst, sumQ, codeMem]
  | cons p rest ih =>
    cases hbc : (p.code == c) with
    | true =>
      simp [adjustFirst, hbc, sumQ, codeMem, hq]
      ring
    | false =>
      simp [adjustFirst, hbc, sumQ, codeMem, List.sum_cons] at ih ⊢
      rw [ih]
      ring

theorem codeMem_adjustFirst (ps : List Product) (c c2 : String) (f : Product → Product)
    (h : ∀ p, (f p).code = p.code) :
    codeMem (adjustFirst ps c f) c2 = codeMem ps c2 := by
  induction ps with
  | nil => rfl
  | cons p rest ih =>
    cases hbc : (p.code == c) with
    | true => simp [adjustFirst, hbc, codeMem, h]
    | false =>
      simp only [adjustFirst, hbc, Bool.false_eq_true, if_false, codeMem, List.any_cons]
      simp only [codeMem] at ih
      rw [ih]

theorem net_cons (it : BufferItem) (rest : List BufferItem) (c : String) :
    net (it :: rest) c = (if it.code == c then it.quantity else 0) + net rest c := by
  cases h : (it.code == c) <;> simp [net, h]

theorem existingNet_cons (ps : List Product) (it : BufferItem) (rest : List BufferItem) :
    existingNet ps (it :: rest) =
      (if codeMem ps it.code then it.quantity else 0) + existingNet ps rest := by
  cases h : codeMem ps it.code <;> simp [existingNet, h]

theorem stockFold_map_code (g : BufferItem → Product → Product)
    (hc : ∀ it p, (g it p).code = p.code) (ps : List Product)
    (items : List BufferItem) :
    (stockFold g ps items).map (fun p => p.code) = ps.map (fun p => p.code) := by
  induction items generalizing ps with
  | nil => rfl
  | cons it rest ih =>
    show (stockFold g (adjustFirst ps it.code (g it)) rest).map (fun p => p.code) = _
    rw [ih, adjustFirst_map_code _ _ _ (hc it)]

theorem stockFold_pairs (g : BufferItem → Product → Product) (s : ℚ)
    (hc : ∀ it p, (g it p).code = p.code)
    (hq : ∀ it p, (g it p).quantity = p.quantity + s * it.quantity)
    (ps : List Product) (items : List BufferItem)
    (hnd : (ps.map (fun p => p.code)).Nodup) :
    (stockFold g ps items).map (fun p => (p.code, p.quantity)) =
      ps.map (fun p => (p.code, p.quantity + s * net items p.code)) := by
  induction items generalizing ps with
  | nil =>
    show ps.map (fun p => (p.code, p.quantity)) = _
    apply List.map_congr_left
    intro p _
    simp [net]
  | cons it rest ih =>
    have hnd2 : ((adjustFirst ps it.code (g it)).map (fun p => p.code)).Nodup := by
      rw [adjustFirst_map_code _ _ _ (hc it)]
      exact hnd
    show (stockFold g (adjustFirst ps it.code (g it)) rest).map (fun p => (p.code, p.quantity)) = _
    rw [ih _ hnd2, adjustFirst_eq_map _ _ _ hnd, List.map_map]
    apply List.map_congr_left
    intro p _
    simp only [Function.comp_apply]
    by_cases hpc : p.code = it.code
    · have hbc : (p.code == it.code) = true := by simpa using hpc
      have hbc2 : (it.code == p.code) = true := by simpa using hpc.symm
      rw [if_pos hbc, hc, hq, net_cons, if_pos hbc2]
      simp only [Prod.mk.injEq]
      exact ⟨trivial, by ring⟩
    · have hbc : ¬ ((p.code == it.code) = true) := by simpa using hpc
      have hbc2 : (it.code == p.code) = false := by
        simpa using fun h => hpc h.symm
      rw [if_neg hbc, net_cons, hbc2]
      simp only [Bool.false_eq_true, if_false, Prod.mk.injEq]
      exact ⟨trivial, by ring⟩

theorem stockFold_sumQ (g : BufferItem → Product → Product) (s : ℚ)
    (hc : ∀ it p, (g it p).code = p.code)
    (hq : ∀ it p, (g it p).quantity = p.quantity + s * it.quantity)
    (ps : List Product) (items : List BufferItem) :
    sumQ (stockFold g ps items) = sumQ ps + s * existingNet ps items := by
  induction items generalizing ps with
  | nil => simp [stockFold, existingNet]
  | cons it rest ih =>
    have h2 : existingNet (adjustFirst ps it.code (g it)) rest = existingNet ps rest := by
      unfold existingNet
      have hfil : (rest.filter (fun x => codeMem (adjustFirst ps it.code (g it)) x.code)) =
          rest.filter (fun x => codeMem ps x.code) := by
        apply List.filter_congr
        intro x _
        rw [codeMem_adjustFirst _ _ _ _ (hc it)]
      rw [hfil]
    show sumQ (stockFold g (adjustFirst ps it.code (g it)) rest) = _
    rw [ih, h2, adjustFirst_sumQ _ _ _ (s * it.quantity) (hq it), existingNet_cons]
    cases hm : codeMem ps it.code
    · simp
    · simp
      ring

theorem billStock_pairs (now : Nat) (ps : List Product) (items : List BufferItem)
    (hnd : (ps.map (fun p => p.code)).Nodup) :
    (stockFold (billAdj now) ps items).map (fun p => (p.code, p.quantity)) =
      ps.map (fun p => (p.code, p.quantity - net items p.code)) := by
  rw [stockFold_pairs (billAdj now) (-1) (fun it p => rfl)
    (fun it p => by simp [billAdj]; ring) ps items hnd]
  apply List.map_congr_left
  intro p _
  simp only [Prod.mk.injEq]
  exact ⟨trivial, by ring⟩

theorem receptionStock_pairs (now : Nat) (ps : List Product) (items : List BufferItem)
    (hnd : (ps.map (fun p => p.code)).Nodup) :
    (stockFold (receptionAdj now) ps items).map (fun p => (p.code, p.quantity)) =
      ps.map (fun p => (p.code, p.quantity + net items p.code)) := by
  rw [stockFold_pairs (receptionAdj now) 1 (fun it p => rfl)
    (fun it p => by simp [receptionAdj]) ps items hnd]
  apply List.map_congr_left
  intro p _
  simp only [Prod.mk.injEq, one_mul]

theorem billStock_sumQ (now : Nat) (ps : List Product) (items : List BufferItem) :
    sumQ (stockFold (billAdj now) ps items) = sumQ ps - existingNet ps items := by
  rw [stockFold_sumQ (billAdj now) (-1) (fun it p => rfl)
    (fun it p => by simp [billAdj]; ring) ps items]
  ring

theorem receptionStock_sumQ (now : Nat) (ps : List Product) (items : List BufferItem) :
    sumQ (stockFold (receptionAdj now) ps items) = sumQ ps + existingNet ps items := by
  rw [stockFold_sumQ (receptionAdj now) 1 (fun it p => rfl)
    (fun it p => by simp [receptionAdj]) ps items]
  ring

theorem billTxnFold (now billId : Nat) (items : List BufferItem) (w : DBState) :
    items.foldl (billTxnStep now billId) w =
      { w with
        products := stockFold (billAdj now) w.products items
        billItems := w.billItems ++ items.map (mkBillItem billId) } := by
  induction items generalizing w with
  | nil => simp [stockFold]
  | cons it rest ih =>
    simp only [List.foldl_cons]
    rw [ih]
    simp [billTxnStep, stockFold]

theorem receptionTxnFold (now receptionId : Nat) (items : List BufferItem) (w : DBState) :
    items.foldl (receptionTxnStep now receptionId) w =
      { w with
        products := stockFold (receptionAdj now) w.products items
        receptionItems := w.receptionItems ++ items.map (mkReceptionItem receptionId) } := by
  induction items generalizing w with
  | nil => simp [stockFold]
  | cons it rest ih =>
    simp only [List.foldl_cons]
    rw [ih]
    simp [receptionTxnStep, stockFold]

theorem finalize_bill_ok_eq (db : DBState) (sess : SessionState)
    (n sg : String) (now : Nat) (items : List BufferItem)
    (hname : pyStrip n ≠ "") (hbuf : sess.bill_items = some items) (hne : items ≠ []) :
    finalize_consumption_bill db sess n sg now false =
      ({ db with
         bills := db.bills ++
           [{ id := db.nextId, employee_name := pyStrip n,
              employee_signature := pyStrip sg, is_finished := true,
              bill_date := now }]
         billItems := db.billItems ++ items.map (mkBillItem db.nextId)
         products := stockFold (billAdj now) db.products items
         draftBills := []
         draftBillItems := []
         nextId := db.nextId + 1 },
       { sess with bill_items := none }, .ok db.nextId) := by
  unfold finalize_consumption_bill
  rw [hbuf]
  cases items with
  | nil => exact absurd rfl hne
  | cons it rest =>
    rw [if_neg hname]
    simp only [Bool.false_eq_true, if_false, billTxnFold]

theorem finalize_reception_ok_eq (db : DBState) (sess : SessionState)
    (sup docNo notes : String) (now : Nat) (items : List BufferItem)
    (hsup : pyStrip sup ≠ "") (hbuf : sess.reception_items = some items)
    (hne : items ≠ []) :
    finalize_reception db sess sup docNo notes now false =
      ({ db with
         receptions := db.receptions ++
           [{ id := db.nextId, supplier := pyStrip sup,
              document_number := pyStrip docNo, notes := pyStrip notes,
              is_finished := true, reception_date := now }]
         receptionItems := db.receptionItems ++ items.map (mkReceptionItem db.nextId)
         products := stockFold (receptionAdj now) db.products items
         draftReceptions := []
         draftReceptionItems := []
         nextId := db.nextId + 1 },
       { sess with reception_items := none }, .ok db.nextId) := by
  unfold finalize_reception
  rw [hbuf]
  cases items with
  | nil => exact absurd rfl hne
  | cons it rest =>
    rw [if_neg hsup]
    simp only [Bool.false_eq_true, if_false, receptionTxnFold]

theorem renumberFrom_length (k : Nat) (l : List BufferItem) :
    (renumberFrom k l).length = l.length := by
  induction l generalizing k with
  | nil => rfl
  | cons it rest ih => simp [renumberFrom, ih]

theorem renumberFrom_map_number (k : Nat) (l : List BufferItem) :
    (renumberFrom k l).map (fun it => it.item_number) = List.range' k l.length := by
  induction l generalizing k with
  | nil => rfl
  | cons it rest ih =>
    rw [List.length_cons, List.range'_succ]
    simp [renumberFrom, ih]

theorem renumberFrom_map_snapshot (k : Nat) (l : List BufferItem) :
    (renumberFrom k l).map snapshot = l.map snapshot := by
  induction l generalizing k with
  | nil => rfl
  | cons it rest ih => simp [renumberFrom, ih, snapshot]

theorem contiguous_renumber (l : List BufferItem) : contiguous (renumber l) := by
  unfold contiguous renumber
  rw [renumberFrom_map_number, renumberFrom_length]

theorem contiguous_append_one (l : List BufferItem) (it : BufferItem)
    (h : contiguous l) (hnum : it.item_number = l.length + 1) :
    contiguous (l ++ [it]) := by
  unfold contiguous at h ⊢
  rw [List.map_append, h, List.length_append]
  have hc : List.range' 1 (l.length + 1) = List.range' 1 l.length ++ [1 + 1 * l.length] :=
    List.range'_concat 1 l.length
  simp only [one_mul] at hc
  simp only [List.length_singleton, List.map_cons, List.map_nil, hnum, hc]
  rw [Nat.add_comm 1 l.length]

theorem add_bill_item_notFound (db : DBState) (sess : SessionState) (code : String)
    (q : ℚ) (hfp : findProduct db.products code = none) :
    add_bill_item db sess code q = .error .productNotFound := by
  simp [add_bill_item, hfp]

theorem add_bill_item_insufficient (db : DBState) (sess : SessionState)
    (code : String) (q : ℚ) (p : Product)
    (hfp : findProduct db.products code = some p) (hq : q > p.quantity) :
    add_bill_item db sess code q = .error .insufficientStock := by
  simp [add_bill_item, hfp, hq]

theorem add_bill_item_ok (db : DBState) (sess : SessionState) (code : String)
    (q : ℚ) (p : Product) (hfp : findProduct db.products code = some p)
    (hq : ¬ q > p.quantity) :
    add_bill_item db sess code q =
      .ok ({ sess with bill_items := some ((sess.bill_items.getD []) ++
              [{ item_number := (sess.bill_items.getD []).length + 1, code := p.code,
                 name := p.name, unit := p.unit, quantity := q, location := p.location }]) },
           { item_number := (sess.bill_items.getD []).length + 1, code := p.code,
             name := p.name, unit := p.unit, quantity := q, location := p.location }) := by
  simp [add_bill_item, hfp, hq]

theorem add_reception_item_notFound (db : DBState) (sess : SessionState)
    (code : String) (q : ℚ) (hfp : findProduct db.products code = none) :
    add_reception_item db sess code q = .error .productNotFound := by
  simp [add_reception_item, hfp]

theorem add_reception_item_ok (db : DBState) (sess : SessionState) (code : String)
    (q : ℚ) (p : Product) (hfp : findProduct db.products code = some p) :
    add_reception_item db sess code q =
      .ok ({ sess with reception_items := some ((sess.reception_items.getD []) ++
              [{ item_number := (sess.reception_items.getD []).length + 1, code := p.code,
                 name := p.name, unit := p.unit, quantity := q, location := p.location }]) },
           { item_number := (sess.reception_items.getD []).length + 1, code := p.code,
             name := p.name, unit := p.unit, quantity := q, location := p.location }) := by
  simp [add_reception_item, hfp]

theorem remove_bill_item_oob (sess : SessionState) (idx : Nat)
    (h : ¬ idx < (sess.bill_items.getD []).length) :
    remove_bill_item sess idx = sess := by
  unfold remove_bill_item
  cases hb : sess.bill_items with
  | none => rfl
  | some items =>
    rw [hb] at h
    simp only [Option.getD_some] at h
    simp [h]

theorem remove_reception_item_oob (sess : SessionState) (idx : Nat)
    (h : ¬ idx < (sess.reception_items.getD []).length) :
    remove_reception_item sess idx = sess := by
  unfold remove_reception_item
  cases hb : sess.reception_items with
  | none => rfl
  | some items =>
    rw [hb] at h
    simp only [Option.getD_some] at h
    simp [h]

theorem remove_bill_item_inb (sess : SessionState) (items : List BufferItem)
    (idx : Nat) (hb : sess.bill_items = some items) (hidx : idx < items.length) :
    remove_bill_item sess idx =
      { sess with bill_items := some (renumber (items.eraseIdx idx)) } := by
  unfold remove_bill_item
  rw [hb]
  simp [hidx]

theorem remove_reception_item_inb (sess : SessionState) (items : List BufferItem)
    (idx : Nat) (hb : sess.reception_items = some items) (hidx : idx < items.length) :
    remove_reception_item sess idx =
      { sess with reception_items := some (renumber (items.eraseIdx idx)) } := by
  unfold remove_reception_item
  rw [hb]
  simp [hidx]

theorem renumber_eraseIdx_snapshot (items : List BufferItem) (idx : Nat) :
    (renumber (items.eraseIdx idx)).map snapshot =
      (items.take idx ++ items.drop (idx + 1)).map snapshot := by
  rw [renumber, renumberFrom_map_snapshot, List.eraseIdx_eq_take_drop_succ]

theorem renumber_eraseIdx_numbers (items : List BufferItem) (idx : Nat)
    (hidx : idx < items.length) :
    (renumber (items.eraseIdx idx)).map (fun it => it.item_number) =
      List.range' 1 (items.length - 1) := by
  rw [renumber, renumberFrom_map_number, List.length_eraseIdx]
  simp [hidx]

theorem applyBillOp_contiguous (db : DBState) (sess : SessionState) (op : BufOp)
    (h : contiguous (sess.bill_items.getD [])) :
    contiguous ((applyBillOp db sess op).bill_items.getD []) := by
  cases op with
  | add code qty =>
    simp only [applyBillOp]
    cases hfp : findProduct db.products code with
    | none => rw [add_bill_item_notFound db sess code qty hfp] ; exact h
    | some p =>
      by_cases hq : qty > p.quantity
      · rw [add_bill_item_insufficient db sess code qty p hfp hq]
        exact h
      · rw [add_bill_item_ok db sess code qty p hfp hq]
        simp only [Option.getD_some]
        exact contiguous_append_one _ _ h rfl
  | remove idx =>
    simp only [applyBillOp]
    by_cases hidx : idx < (sess.bill_items.getD []).length
    · cases hb : sess.bill_items with
      | none =>
        rw [hb] at hidx
        simp at hidx
      | some items =>
        rw [hb] at hidx
        simp only [Option.getD_some] at hidx
        rw [remove_bill_item_inb sess items idx hb hidx]
        simp only [Option.getD_some]
        exact contiguous_renumber _
    · rw [remove_bill_item_oob sess idx hidx]
      exact h

theorem runBillOps_contiguous (db : DBState) (sess : SessionState) (ops : List BufOp)
    (h : contiguous (sess.bill_items.getD [])) :
    contiguous ((runBillOps db sess ops).bill_items.getD []) := by
  induction ops generalizing sess with
  | nil => exact h
  | cons op rest ih =>
    exact ih (applyBillOp db sess op) (applyBillOp_contiguous db sess op h)

theorem applyReceptionOp_contiguous (db : DBState) (sess : SessionState) (op : BufOp)
    (h : contiguous (sess.reception_items.getD [])) :
    contiguous ((applyReceptionOp db sess op).reception_items.getD []) := by
  cases op with
  | add code qty =>
    simp only [applyReceptionOp]
    cases hfp : findProduct db.products code with
    | none => rw [add_reception_item_notFound db sess code qty hfp] ; exact h
    | some p =>
      rw [add_reception_item_ok db sess code qty p hfp]
      simp only [Option.getD_some]
      exact contiguous_append_one _ _ h rfl
  | remove idx =>
    simp only [applyReceptionOp]
    by_cases hidx : idx < (sess.reception_items.getD []).length
    · cases hb : sess.reception_items with
      | none =>
        rw [hb] at hidx
        simp at hidx
      | some items =>
        rw [hb] at hidx
        simp only [Option.getD_some] at hidx
        rw [remove_reception_item_inb sess items idx hb hidx]
        simp only [Option.getD_some]
        exact contiguous_renumber _
    · rw [remove_reception_item_oob sess idx hidx]
      exact h

theorem runReceptionOps_contiguous (db : DBState) (sess : SessionState)
    (ops : List BufOp) (h : contiguous (sess.reception_items.getD [])) :
    contiguous ((runReceptionOps db sess ops).reception_items.getD []) := by
  induction ops generalizing sess with
  | nil => exact h
  | cons op rest ih =>
    exact ih (applyReceptionOp db sess op) (applyReceptionOp_contiguous db sess op h)

theorem draftBillItem_roundtrip (draftId : Nat) (it : BufferItem) :
    draftBillItemToBuffer (mkDraftBillItem draftId it) = it := by
  cases it
  rfl

theorem draftReceptionItem_roundtrip (draftId : Nat) (it : BufferItem) :
    draftReceptionItemToBuffer (mkDraftReceptionItem draftId it) = it := by
  cases it
  rfl

theorem load_after_save_bill (db : DBState) (sess sess2 : SessionState)
    (n sg : String) (now : Nat) :
    load_draft_bill (save_bill_draft db sess n sg now) sess2 =
      ({ sess2 with bill_items := some (sess.bill_items.getD []) },
       some { employee_name := n, employee_signature := sg }) := by
  unfold load_draft_bill save_bill_draft
  simp only [latestDraftBill, List.foldl_cons, List.foldl_nil]
  have hfil : ((sess.bill_items.getD []).map (mkDraftBillItem db.nextId)).filter
      (fun it => it.draft_id == db.nextId) =
      (sess.bill_items.getD []).map (mkDraftBillItem db.nextId) := by
    apply List.filter_eq_self.mpr
    intro x hx
    rcases List.mem_map.mp hx with ⟨it, hit, rfl⟩
    simp [mkDraftBillItem]
  rw [hfil, List.map_map]
  have hmap : (sess.bill_items.getD []).map
      (draftBillItemToBuffer ∘ mkDraftBillItem db.nextId) = sess.bill_items.getD [] := by
    have h2 : ∀ it ∈ sess.bill_items.getD [],
        (draftBillItemToBuffer ∘ mkDraftBillItem db.nextId) it = it := by
      intro it _
      exact draftBillItem_roundtrip db.nextId it
    rw [List.map_congr_left h2]
    simp
  rw [hmap]

theorem load_after_save_reception (db : DBState) (sess sess2 : SessionState)
    (sup docNo notes : String) (now : Nat) :
    load_draft_reception (save_reception_draft db sess sup docNo notes now) sess2 =
      ({ sess2 with reception_items := some (sess.reception_items.getD []) },
       some { supplier := sup, document_number := docNo, notes := notes }) := by
  unfold load_draft_reception save_reception_draft
  simp only [latestDraftReception, List.foldl_cons, List.foldl_nil]
  have hfil : ((sess.reception_items.getD []).map (mkDraftReceptionItem db.nextId)).filter
      (fun it => it.draft_id == db.nextId) =
      (sess.reception_items.getD []).map (mkDraftReceptionItem db.nextId) := by
    apply List.filter_eq_self.mpr
    intro x hx
    rcases List.mem_map.mp hx with ⟨it, hit, rfl⟩
    simp [mkDraftReceptionItem]
  rw [hfil, List.map_map]
  have hmap : (sess.reception_items.getD []).map
      (draftReceptionItemToBuffer ∘ mkDraftReceptionItem db.nextId) =
      sess.reception_items.getD [] := by
    have h2 : ∀ it ∈ sess.reception_items.getD [],
        (draftReceptionItemToBuffer ∘ mkDraftReceptionItem db.nextId) it = it := by
      intro it _
      exact draftReceptionItem_roundtrip db.nextId it
    rw [List.map_congr_left h2]
    simp
  rw [hmap]

theorem load_draft_bill_empty (db : DBState) (sess : SessionState)
    (h : db.draftBills = []) : load_draft_bill db sess = (sess, none) := by
  unfold load_draft_bill
  rw [h]
  rfl

theorem load_draft_reception_empty (db : DBState) (sess : SessionState)
    (h : db.draftReceptions = []) : load_draft_reception db sess = (sess, none) := by
  unfold load_draft_reception
  rw [h]
  rfl

theorem load_draft_bill_frame (db : DBState) (sess : SessionState)
    (h : (load_draft_bill db sess).2 = none) : (load_draft_bill db sess).1 = sess := by
  unfold load_draft_bill at h ⊢
  cases hd : latestDraftBill db.draftBills with
  | none => rfl
  | some d =>
    rw [hd] at h
    simp at h

theorem load_draft_reception_frame (db : DBState) (sess : SessionState)
    (h : (load_draft_reception db sess).2 = none) :
    (load_draft_reception db sess).1 = sess := by
  unfold load_draft_reception at h ⊢
  cases hd : latestDraftReception db.draftReceptions with
  | none => rfl
  | some d =>
    rw [hd] at h
    simp at h

/-- C1: on any failure inside the finalize transaction of a consumption
bill or reception, the committed store (documents, line items, product
quantities, drafts) and the session buffer are unchanged and the error is
surfaced to the caller. -/
theorem claim_C1_txn_rollback :
    (∀ (db : DBState) (sess : SessionState) (n sg : String) (now : Nat)
       (items : List BufferItem),
       pyStrip n ≠ "" → sess.bill_items = some items → items ≠ [] →
       finalize_consumption_bill db sess n sg now true = (db, sess, .txnFailure))
  ∧ (∀ (db : DBState) (sess : SessionState) (sup docNo notes : String) (now : Nat)
       (items : List BufferItem),
       pyStrip sup ≠ "" → sess.reception_items = some items → items ≠ [] →
       finalize_reception db sess sup docNo notes now true = (db, sess, .txnFailure)) := by
  constructor
  · intro db sess n sg now items hn hb hne
    unfold finalize_consumption_bill
    rw [hb]
    cases items with
    | nil => exact absurd rfl hne
    | cons it rest =>
      rw [if_neg hn]
      rfl
  · intro db sess sup docNo notes now items hs hb hne
    unfold finalize_reception
    rw [hb]
    cases items with
    | nil => exact absurd rfl hne
    | cons it rest =>
      rw [if_neg hs]
      rfl

/-- Witness for C1 at a concrete store, session and metadata. -/
theorem claim_C1_txn_rollback_witness :
    finalize_consumption_bill sampleDB sessC2 "X" "" 7 true =
      (sampleDB, sessC2, .txnFailure) ∧
    finalize_reception sampleDB sessC2 "S" "D" "N" 7 true =
      (sampleDB, sessC2, .txnFailure) :=
  ⟨claim_C1_txn_rollback.1 sampleDB sessC2 "X" "" 7 [itemA1q4, itemZZq3]
      (by decide) rfl (by decide),
   claim_C1_txn_rollback.2 sampleDB sessC2 "S" "D" "N" 7 [itemA1q4, itemZZq3]
      (by decide) rfl (by decide)⟩

/-- C3 counterexample: with the buffer absent and an empty employee name,
finalize of a consumption bill fails with the metadata validation error,
not with the empty-document error, because the metadata check runs
first. -/
theorem claim_C3_counterexample :
    (finalize_consumption_bill sampleDB sess0 "" "" 0 false).2.2 =
      FinalizeResult.validationError ∧
    FinalizeResult.validationError ≠ FinalizeResult.emptyDocument :=
  ⟨rfl, by decide⟩

/-- C3 amended: when the buffer of a type is empty or absent, finalize of
that type fails and creates nothing; the failure is EmptyDocumentError
when the required metadata field is non-empty after stripping, and the
metadata ValidationError otherwise. -/
theorem claim_C3_empty_buffer :
    (∀ (db : DBState) (sess : SessionState) (n sg : String) (now : Nat) (fail : Bool),
       sess.bill_items = none ∨ sess.bill_items = some [] →
       ((finalize_consumption_bill db sess n sg now fail).1 = db ∧
        (finalize_consumption_bill db sess n sg now fail).2.1 = sess ∧
        (pyStrip n = "" →
          (finalize_consumption_bill db sess n sg now fail).2.2 = .validationError) ∧
        (pyStrip n ≠ "" →
          (finalize_consumption_bill db sess n sg now fail).2.2 = .emptyDocument)))
  ∧ (∀ (db : DBState) (sess : SessionState) (sup docNo notes : String) (now : Nat)
       (fail : Bool),
       sess.reception_items = none ∨ sess.reception_items = some [] →
       ((finalize_reception db sess sup docNo notes now fail).1 = db ∧
        (finalize_reception db sess sup docNo notes now fail).2.1 = sess ∧
        (pyStrip sup = "" →
          (finalize_reception db sess sup docNo notes now fail).2.2 = .validationError) ∧
        (pyStrip sup ≠ "" →
          (finalize_reception db sess sup docNo notes now fail).2.2 = .emptyDocument))) := by
  constructor
  · intro db sess n sg now fail hbuf
    unfold finalize_consumption_bill
    by_cases hn : pyStrip n = ""
    · rw [if_pos hn]
      exact ⟨rfl, rfl, fun _ => rfl, fun h => absurd hn h⟩
    · rw [if_neg hn]
      rcases hbuf with hbuf | hbuf <;> rw [hbuf]
      · exact ⟨rfl, rfl, fun h => absurd h hn, fun _ => rfl⟩
      · exact ⟨rfl, rfl, fun h => absurd h hn, fun _ => rfl⟩
  · intro db sess sup docNo notes now fail hbuf
    unfold finalize_reception
    by_cases hs : pyStrip sup = ""
    · rw [if_pos hs]
      exact ⟨rfl, rfl, fun _ => rfl, fun h => absurd hs h⟩
    · rw [if_neg hs]
      rcases hbuf with hbuf | hbuf <;> rw [hbuf]
      · exact ⟨rfl, rfl, fun h => absurd h hs, fun _ => rfl⟩
      · exact ⟨rfl, rfl, fun h => absurd h hs, fun _ => rfl⟩

/-- Witness for C3 at a fresh session with no buffer keys. -/
theorem claim_C3_empty_buffer_witness :
    ((finalize_consumption_bill sampleDB sess0 "E" "" 0 false).1 = sampleDB ∧
     (finalize_consumption_bill sampleDB sess0 "E" "" 0 false).2.1 = sess0 ∧
     (pyStrip "E" = "" →
       (finalize_consumption_bill sampleDB sess0 "E" "" 0 false).2.2 = .validationError) ∧
     (pyStrip "E" ≠ "" →
       (finalize_consumption_bill sampleDB sess0 "E" "" 0 false).2.2 = .emptyDocument)) ∧
    ((finalize_reception sampleDB sess0 "S" "" "" 0 false).1 = sampleDB ∧
     (finalize_reception sampleDB sess0 "S" "" "" 0 false).2.1 = sess0 ∧
     (pyStrip "S" = "" →
       (finalize_reception sampleDB sess0 "S" "" "" 0 false).2.2 = .validationError) ∧
     (pyStrip "S" ≠ "" →
       (finalize_reception sampleDB sess0 "S" "" "" 0 false).2.2 = .emptyDocument)) :=
  ⟨claim_C3_empty_buffer.1 sampleDB sess0 "E" "" 0 false (Or.inl rfl),
   claim_C3_empty_buffer.2 sampleDB sess0 "S" "" "" 0 false (Or.inl rfl)⟩

/-- C5: saveDraft followed by loadDraft of the same type reproduces the
saved metadata values verbatim and installs in the session exactly the
saved buffer entries, with the same codes, quantities, numbering and
order. -/
theorem claim_C5_draft_roundtrip :
    (∀ (db : DBState) (sess sess2 : SessionState) (n sg : String) (now : Nat),
       load_draft_bill (save_bill_draft db sess n sg now) sess2 =
         ({ sess2 with bill_items := some (sess.bill_items.getD []) },
          some { employee_name := n, employee_signature := sg }))
  ∧ (∀ (db : DBState) (sess sess2 : SessionState) (sup docNo notes : String)
       (now : Nat),
       load_draft_reception (save_reception_draft db sess sup docNo notes now) sess2 =
         ({ sess2 with reception_items := some (sess.reception_items.getD []) },
          some { supplier := sup, document_number := docNo, notes := notes })) :=
  ⟨fun db sess sess2 n sg now => load_after_save_bill db sess sess2 n sg now,
   fun db sess sess2 sup docNo notes now =>
     load_after_save_reception db sess sess2 sup docNo notes now⟩

/-- C6: addItem fails with ProductNotFound when the code is absent from
the catalog; a consumption-bill addItem fails with InsufficientStock when
the quantity strictly exceeds the catalog quantity, while the reception
addItem has no stock check; a successful addItem appends the snapshot of
the product with the given quantity and sequence number equal to the old
buffer length plus one. -/
theorem claim_C6_addItem :
    (∀ (db : DBState) (sess : SessionState) (code : String) (q : ℚ),
       findProduct db.products code = none →
       add_bill_item db sess code q = .error .productNotFound ∧
       add_reception_item db sess code q = .error .productNotFound)
  ∧ (∀ (db : DBState) (sess : SessionState) (code : String) (q : ℚ) (p : Product),
       findProduct db.products code = some p → q > p.quantity →
       add_bill_item db sess code q = .error .insufficientStock)
  ∧ (∀ (db : DBState) (sess : SessionState) (code : String) (q : ℚ) (p : Product),
       findProduct db.products code = some p → ¬ q > p.quantity →
       add_bill_item db sess code q =
         .ok ({ sess with bill_items := some ((sess.bill_items.getD []) ++
                 [{ item_number := (sess.bill_items.getD []).length + 1, code := p.code,
                    name := p.name, unit := p.unit, quantity := q,
                    location := p.location }]) },
              { item_number := (sess.bill_items.getD []).length + 1, code := p.code,
                name := p.name, unit := p.unit, quantity := q, location := p.location }))
  ∧ (∀ (db : DBState) (sess : SessionState) (code : String) (q : ℚ) (p : Product),
       findProduct db.products code = some p →
       add_reception_item db sess code q =
         .ok ({ sess with reception_items := some ((sess.reception_items.getD []) ++
                 [{ item_number := (sess.reception_items.getD []).length + 1,
                    code := p.code, name := p.name, unit := p.unit, quantity := q,
                    location := p.location }]) },
              { item_number := (sess.reception_items.getD []).length + 1, code := p.code,
                name := p.name, unit := p.unit, quantity := q,
                location := p.location })) :=
  ⟨fun db sess code q hfp =>
     ⟨add_bill_item_notFound db sess code q hfp,
      add_reception_item_notFound db sess code q hfp⟩,
   fun db sess code q p hfp hq => add_bill_item_insufficient db sess code q p hfp hq,
   fun db sess code q p hfp hq => add_bill_item_ok db sess code q p hfp hq,
   fun db sess code q p hfp => add_reception_item_ok db sess code q p hfp⟩

/-- Witness for C6 at the sample catalog: a missing code, an excessive
bill quantity, a successful bill add and a successful reception add. -/
theorem claim_C6_addItem_witness :
    (add_bill_item sampleDB sess0 "ZZ" 1 = .error .productNotFound ∧
     add_reception_item sampleDB sess0 "ZZ" 1 = .error .productNotFound) ∧
    add_bill_item sampleDB sess0 "A1" 11 = .error .insufficientStock ∧
    add_bill_item sampleDB sess0 "A1" 4 =
      .ok ({ sess0 with bill_items := some [itemA1q4] }, itemA1q4) ∧
    add_reception_item sampleDB sess0 "B2" 99 =
      .ok ({ sess0 with reception_items := some [itemB2q99] }, itemB2q99) :=
  ⟨claim_C6_addItem.1 sampleDB sess0 "ZZ" 1 rfl,
   claim_C6_addItem.2.1 sampleDB sess0 "A1" 11 prodA1 rfl (by decide),
   (claim_C6_addItem.2.2.1 sampleDB sess0 "A1" 4 prodA1 rfl (by decide)).trans (by decide),
   (claim_C6_addItem.2.2.2 sampleDB sess0 "B2" 99 prodB2 rfl).trans (by decide)⟩

/-- C8: after a successful finalize of a type, every persisted draft row
of that type is gone, the session buffer of that type is cleared, and
loadDraft of that type returns the not-found signal. -/
theorem claim_C8_finalize_clears :
    (∀ (db : DBState) (sess : SessionState) (n sg : String) (now : Nat)
       (items : List BufferItem),
       pyStrip n ≠ "" → sess.bill_items = some items → items ≠ [] →
       ((finalize_consumption_bill db sess n sg now false).1.draftBills = [] ∧
        (finalize_consumption_bill db sess n sg now false).1.draftBillItems = [] ∧
        (finalize_consumption_bill db sess n sg now false).2.1.bill_items = none ∧
        load_draft_bill (finalize_consumption_bill db sess n sg now false).1
            (finalize_consumption_bill db sess n sg now false).2.1 =
          ((finalize_consumption_bill db sess n sg now false).2.1, none)))
  ∧ (∀ (db : DBState) (sess : SessionState) (sup docNo notes : String) (now : Nat)
       (items : List BufferItem),
       pyStrip sup ≠ "" → sess.reception_items = some items → items ≠ [] →
       ((finalize_reception db sess sup docNo notes now false).1.draftReceptions = [] ∧
        (finalize_reception db sess sup docNo notes now false).1.draftReceptionItems = [] ∧
        (finalize_reception db sess sup docNo notes now false).2.1.reception_items = none ∧
        load_draft_reception (finalize_reception db sess sup docNo notes now false).1
            (finalize_reception db sess sup docNo notes now false).2.1 =
          ((finalize_reception db sess sup docNo notes now false).2.1, none))) := by
  constructor
  · intro db sess n sg now items hn hb hne
    rw [finalize_bill_ok_eq db sess n sg now items hn hb hne]
    exact ⟨rfl, rfl, rfl, load_draft_bill_empty _ _ rfl⟩
  · intro db sess sup docNo notes now items hs hb hne
    rw [finalize_reception_ok_eq db sess sup docNo notes now items hs hb hne]
    exact ⟨rfl, rfl, rfl, load_draft_reception_empty _ _ rfl⟩

/-- Witness for C8 at the sample store and buffers. -/
theorem claim_C8_finalize_clears_witness :
    ((finalize_consumption_bill sampleDB sessC2 "X" "" 7 false).1.draftBills = [] ∧
     (finalize_consumption_bill sampleDB sessC2 "X" "" 7 false).1.draftBillItems = [] ∧
     (finalize_consumption_bill sampleDB sessC2 "X" "" 7 false).2.1.bill_items = none ∧
     load_draft_bill (finalize_consumption_bill sampleDB sessC2 "X" "" 7 false).1
         (finalize_consumption_bill sampleDB sessC2 "X" "" 7 false).2.1 =
       ((finalize_consumption_bill sampleDB sessC2 "X" "" 7 false).2.1, none)) ∧
    ((finalize_reception sampleDB sessC2 "S" "D" "N" 7 false).1.draftReceptions = [] ∧
     (finalize_reception sampleDB sessC2 "S" "D" "N" 7 false).1.draftReceptionItems = [] ∧
     (finalize_reception sampleDB sessC2 "S" "D" "N" 7 false).2.1.reception_items = none ∧
     load_draft_reception (finalize_reception sampleDB sessC2 "S" "D" "N" 7 false).1
         (finalize_reception sampleDB sessC2 "S" "D" "N" 7 false).2.1 =
       ((finalize_reception sampleDB sessC2 "S" "D" "N" 7 false).2.1, none)) :=
  ⟨claim_C8_finalize_clears.1 sampleDB sessC2 "X" "" 7 [itemA1q4, itemZZq3]
      (by decide) rfl (by decide),
   claim_C8_finalize_clears.2 sampleDB sessC2 "S" "D" "N" 7 [itemA1q4, itemZZq3]
      (by decide) rfl (by decide)⟩

/-- C10: when no draft of a type is persisted, loadDraft of that type
returns the not-found signal with the session untouched, and the buffer is
replaced only when a draft is found. -/
theorem claim_C10_load_notfound_frame :
    (∀ (db : DBState) (sess : SessionState), db.draftBills = [] →
       load_draft_bill db sess = (sess, none))
  ∧ (∀ (db : DBState) (sess : SessionState), (load_draft_bill db sess).2 = none →
       (load_draft_bill db sess).1 = sess)
  ∧ (∀ (db : DBState) (sess : SessionState), db.draftReceptions = [] →
       load_draft_reception db sess = (sess, none))
  ∧ (∀ (db : DBState) (sess : SessionState), (load_draft_reception db sess).2 = none →
       (load_draft_reception db sess).1 = sess) :=
  ⟨fun db sess h => load_draft_bill_empty db sess h,
   fun db sess h => load_draft_bill_frame db sess h,
   fun db sess h => load_draft_reception_empty db sess h,
   fun db sess h => load_draft_reception_frame db sess h⟩

/-- Witness for C10 at a session that already holds buffered items. -/
theorem claim_C10_load_notfound_frame_witness :
    load_draft_bill sampleDB sessC2 = (sessC2, none) ∧
    (load_draft_bill sampleDB sessC2).1 = sessC2 ∧
    load_draft_reception sampleDB sessC2 = (sessC2, none) ∧
    (load_draft_reception sampleDB sessC2).1 = sessC2 :=
  ⟨claim_C10_load_notfound_frame.1 sampleDB sessC2 rfl,
   claim_C10_load_notfound_frame.2.1 sampleDB sessC2 rfl,
   claim_C10_load_notfound_frame.2.2.1 sampleDB sessC2 rfl,
   claim_C10_load_notfound_frame.2.2.2 sampleDB sessC2 rfl⟩

/-- C2: on a successful finalize, every catalog product keeps its code and
its quantity changes by exactly the summed quantities of the buffer items
carrying its code, subtracted for a bill and added for a reception; every
buffer item is recorded as a line item even when its product no longer
exists, and the total quantity delta equals the signed sum over the items
whose product exists. -/
theorem claim_C2_stock_delta :
    (∀ (db : DBState) (sess : SessionState) (n sg : String) (now : Nat)
       (items : List BufferItem),
       pyStrip n ≠ "" → sess.bill_items = some items → items ≠ [] →
       (db.products.map (fun p => p.code)).Nodup →
       ((finalize_consumption_bill db sess n sg now false).1.products.map
           (fun p => (p.code, p.quantity)) =
          db.products.map (fun p => (p.code, p.quantity - net items p.code)) ∧
        (finalize_consumption_bill db sess n sg now false).1.billItems =
          db.billItems ++ items.map (mkBillItem db.nextId) ∧
        sumQ (finalize_consumption_bill db sess n sg now false).1.products =
          sumQ db.products - existingNet db.products items ∧
        (finalize_consumption_bill db sess n sg now false).2.2 = .ok db.nextId))
  ∧ (∀ (db : DBState) (sess : SessionState) (sup docNo notes : String) (now : Nat)
       (items : List BufferItem),
       pyStrip sup ≠ "" → sess.reception_items = some items → items ≠ [] →
       (db.products.map (fun p => p.code)).Nodup →
       ((finalize_reception db sess sup docNo notes now false).1.products.map
           (fun p => (p.code, p.quantity)) =
          db.products.map (fun p => (p.code, p.quantity + net items p.code)) ∧
        (finalize_reception db sess sup docNo notes now false).1.receptionItems =
          db.receptionItems ++ items.map (mkReceptionItem db.nextId) ∧
        sumQ (finalize_reception db sess sup docNo notes now false).1.products =
          sumQ db.products + existingNet db.products items ∧
        (finalize_reception db sess sup docNo notes now false).2.2 = .ok db.nextId)) := by
  constructor
  · intro db sess n sg now items hn hb hne hnd
    rw [finalize_bill_ok_eq db sess n sg now items hn hb hne]
    exact ⟨billStock_pairs now db.products items hnd, rfl,
           billStock_sumQ now db.products items, rfl⟩
  · intro db sess sup docNo notes now items hs hb hne hnd
    rw [finalize_reception_ok_eq db sess sup docNo notes now items hs hb hne]
    exact ⟨receptionStock_pairs now db.products items hnd, rfl,
           receptionStock_sumQ now db.products items, rfl⟩

/-- Witness for C2: finalizing the sample buffers, whose item ZZ has no
catalog product, leaves A1 at 6 after the bill and at 14 after the
reception while B2 is untouched. -/
theorem claim_C2_stock_delta_witness :
    (finalize_consumption_bill sampleDB sessC2 "X" "" 7 false).1.products.map
      (fun p => (p.code, p.quantity)) = [("A1", 6), ("B2", 5)] ∧
    (finalize_reception sampleDB sessC2 "S" "D" "N" 7 false).1.products.map
      (fun p => (p.code, p.quantity)) = [("A1", 14), ("B2", 5)] :=
  ⟨((claim_C2_stock_delta.1 sampleDB sessC2 "X" "" 7 [itemA1q4, itemZZq3]
       (by decide) rfl (by decide) (by decide)).1).trans
     (by simp [sampleDB, prodA1, prodB2, net, itemA1q4, itemZZq3]
         norm_num),
   ((claim_C2_stock_delta.2 sampleDB sessC2 "S" "D" "N" 7 [itemA1q4, itemZZq3]
       (by decide) rfl (by decide) (by decide)).1).trans
     (by simp [sampleDB, prodA1, prodB2, net, itemA1q4, itemZZq3]
         norm_num)⟩

/-- C4 counterexample: with A1 at quantity 10 and 4 units already pending
in the session, addItem(A1, 10) does not fail with InsufficientStock,
because the check is the strict comparison 10 > 10 against the catalog
quantity. -/
theorem claim_C4_counterexample :
    add_bill_item sampleDB c4sess1 "A1" 10 ≠ .error .insufficientStock := by
  decide

/-- C4 amended: with A1 at catalog quantity 10, addItem(A1, 4) succeeds
and the subsequent addItem(A1, 10) also succeeds, since the check compares
against the catalog quantity 10 (not reduced by the pending item) and 10
does not strictly exceed it; finalizing with a non-empty employee name
then succeeds and leaves A1 at quantity -4. -/
theorem claim_C4_scenario :
    (add_bill_item sampleDB sess0 "A1" 4).isOk = true ∧
    (add_bill_item sampleDB c4sess1 "A1" 10).isOk = true ∧
    (finalize_consumption_bill sampleDB c4sess2 "X" "" 7 false).2.2 = .ok 5 ∧
    (finalize_consumption_bill sampleDB c4sess2 "X" "" 7 false).1.products.map
      (fun p => (p.code, p.quantity)) = [("A1", -4), ("B2", 5)] := by
  refine ⟨by decide, by decide, by decide, ?_⟩
  simp [finalize_consumption_bill, sampleDB, c4sess2, c4sess1, sess0, add_bill_item,
    findProduct, prodA1, prodB2, pyStrip, stripChars, extractSess, billTxnStep,
    adjustFirst, billAdj, mkBillItem]

/-- C7: every sequence of addItem and removeItem operations preserves the
1..n contiguous numbering of the buffer; removeItem with an out-of-bounds
index is a no-op, and an in-bounds removeItem drops exactly the entry at
that position, keeping the other entries in order with all fields other
than the renumbered sequence number unchanged. -/
theorem claim_C7_numbering :
    (∀ (db : DBState) (sess : SessionState) (ops : List BufOp),
       contiguous (sess.bill_items.getD []) →
       contiguous ((runBillOps db sess ops).bill_items.getD []))
  ∧ (∀ (db : DBState) (sess : SessionState) (ops : List BufOp),
       contiguous (sess.reception_items.getD []) →
       contiguous ((runReceptionOps db sess ops).reception_items.getD []))
  ∧ (∀ (sess : SessionState) (idx : Nat),
       ¬ idx < (sess.bill_items.getD []).length → remove_bill_item sess idx = sess)
  ∧ (∀ (sess : SessionState) (idx : Nat),
       ¬ idx < (sess.reception_items.getD []).length →
       remove_reception_item sess idx = sess)
  ∧ (∀ (sess : SessionState) (items : List BufferItem) (idx : Nat),
       sess.bill_items = some items → idx < items.length →
       (((remove_bill_item sess idx).bill_items.getD []).map snapshot =
          (items.take idx ++ items.drop (idx + 1)).map snapshot ∧
        ((remove_bill_item sess idx).bill_items.getD []).map
            (fun it => it.item_number) =
          List.range' 1 (items.length - 1)))
  ∧ (∀ (sess : SessionState) (items : List BufferItem) (idx : Nat),
       sess.reception_items = some items → idx < items.length →
       (((remove_reception_item sess idx).reception_items.getD []).map snapshot =
          (items.take idx ++ items.drop (idx + 1)).map snapshot ∧
        ((remove_reception_item sess idx).reception_items.getD []).map
            (fun it => it.item_number) =
          List.range' 1 (items.length - 1))) := by
  refine ⟨runBillOps_contiguous, runReceptionOps_contiguous,
    remove_bill_item_oob, remove_reception_item_oob, ?_, ?_⟩
  · intro sess items idx hb hidx
    rw [remove_bill_item_inb sess items idx hb hidx]
    exact ⟨renumber_eraseIdx_snapshot items idx, renumber_eraseIdx_numbers items idx hidx⟩
  · intro sess items idx hb hidx
    rw [remove_reception_item_inb sess items idx hb hidx]
    exact ⟨renumber_eraseIdx_snapshot items idx, renumber_eraseIdx_numbers items idx hidx⟩

/-- Witness for C7: a concrete add-add-remove run on each buffer and a
concrete in-bounds and out-of-bounds removeItem. -/
theorem claim_C7_numbering_witness :
    contiguous ((runBillOps sampleDB sess0
        [.add "A1" 2, .add "B2" 1, .remove 0]).bill_items.getD []) ∧
    contiguous ((runReceptionOps sampleDB sess0
        [.add "A1" 2, .add "B2" 1, .remove 0]).reception_items.getD []) ∧
    remove_bill_item sessC2 7 = sessC2 ∧
    remove_reception_item sessC2 7 = sessC2 ∧
    (((remove_bill_item sessC2 0).bill_items.getD []).map snapshot =
       ([itemA1q4, itemZZq3].take 0 ++ [itemA1q4, itemZZq3].drop 1).map snapshot ∧
     ((remove_bill_item sessC2 0).bill_items.getD []).map (fun it => it.item_number) =
       List.range' 1 1) ∧
    (((remove_reception_item sessC2 0).reception_items.getD []).map snapshot =
       ([itemA1q4, itemZZq3].take 0 ++ [itemA1q4, itemZZq3].drop 1).map snapshot ∧
     ((remove_reception_item sessC2 0).reception_items.getD []).map
         (fun it => it.item_number) =
       List.range' 1 1) :=
  ⟨claim_C7_numbering.1 sampleDB sess0 [.add "A1" 2, .add "B2" 1, .remove 0] rfl,
   claim_C7_numbering.2.1 sampleDB sess0 [.add "A1" 2, .add "B2" 1, .remove 0] rfl,
   claim_C7_numbering.2.2.1 sessC2 7 (by decide),
   claim_C7_numbering.2.2.2.1 sessC2 7 (by decide),
   claim_C7_numbering.2.2.2.2.1 sessC2 [itemA1q4, itemZZq3] 0 rfl (by decide),
   claim_C7_numbering.2.2.2.2.2 sessC2 [itemA1q4, itemZZq3] 0 rfl (by decide)⟩

/-- C9 counterexample: addItem accepts a negative quantity, so a buffer
entry and, after finalize, a recorded line item with quantity -5 are
reachable. -/
theorem claim_C9_counterexample :
    (add_bill_item sampleDB sess0 "A1" (-5)).isOk = true ∧
    (c9sess.bill_items.getD []).map (fun it => it.quantity) = [(-5 : ℚ)] ∧
    (finalize_consumption_bill sampleDB c9sess "X" "" 7 false).1.billItems.map
      (fun b => b.quantity) = [(-5 : ℚ)] ∧
    ¬ (0 : ℚ) < (-5 : ℚ) := by
  refine ⟨by decide, by decide, ?_, by decide⟩
  have hc9 : c9sess = { bill_items := some [itemA1neg5], reception_items := none } := by
    decide
  rw [hc9, finalize_bill_ok_eq sampleDB _ "X" "" 7 [itemA1neg5] (by decide) rfl
    (by decide)]
  simp [sampleDB, mkBillItem, itemA1neg5]

/-- C9 amended: the recorded quantity of a line item is exactly the
quantity passed to addItem, with no positivity validation: a bill addItem
succeeds for every quantity not exceeding the catalog quantity, zero and
negative quantities included, and a reception addItem succeeds for every
quantity whenever the product exists. -/
theorem claim_C9_quantity_passthrough :
    (∀ (db : DBState) (sess : SessionState) (code : String) (q : ℚ) (p : Product),
       findProduct db.products code = some p → q ≤ p.quantity →
       add_bill_item db sess code q =
         .ok ({ sess with bill_items := some ((sess.bill_items.getD []) ++
                 [{ item_number := (sess.bill_items.getD []).length + 1, code := p.code,
                    name := p.name, unit := p.unit, quantity := q,
                    location := p.location }]) },
              { item_number := (sess.bill_items.getD []).length + 1, code := p.code,
                name := p.name, unit := p.unit, quantity := q, location := p.location }))
  ∧ (∀ (db : DBState) (sess : SessionState) (code : String) (q : ℚ) (p : Product),
       findProduct db.products code = some p →
       add_reception_item db sess code q =
         .ok ({ sess with reception_items := some ((sess.reception_items.getD []) ++
                 [{ item_number := (sess.reception_items.getD []).length + 1,
                    code := p.code, name := p.name, unit := p.unit, quantity := q,
                    location := p.location }]) },
              { item_number := (sess.reception_items.getD []).length + 1, code := p.code,
                name := p.name, unit := p.unit, quantity := q,
                location := p.location })) :=
  ⟨fun db sess code q p hfp hq =>
     add_bill_item_ok db sess code q p hfp (not_lt.mpr hq),
   fun db sess code q p hfp => add_reception_item_ok db sess code q p hfp⟩

/-- Witness for C9 at quantity -5 of product A1. -/
theorem claim_C9_quantity_passthrough_witness :
    add_bill_item sampleDB sess0 "A1" (-5) =
      .ok ({ sess0 with bill_items := some [itemA1neg5] }, itemA1neg5) ∧
    add_reception_item sampleDB sess0 "A1" (-5) =
      .ok ({ sess0 with reception_items := some [{ itemA1neg5 with item_number := 1 }] },
           { itemA1neg5 with item_number := 1 }) :=
  ⟨(claim_C9_quantity_passthrough.1 sampleDB sess0 "A1" (-5) prodA1 rfl
      (by decide)).trans (by decide),
   (claim_C9_quantity_passthrough.2 sampleDB sess0 "A1" (-5) prodA1 rfl).trans
     (by decide)⟩

end TW
